import Mathlib

/-!
Shallow embedding of the photo-upload-s3-app thumbnail pipeline.

Python strings are modelled as `List Char` (the keys and filenames the
claims exercise are ASCII), byte strings as `List Nat`.  External
imaging / storage library calls (PIL, boto3) are modelled as oracle
fields of explicit environment structures; all control flow of the
repository's own code is translated directly from the source.

Sources embedded:
  * src/lambda_function_pil.py      (namespace PilLambda)
  * src/lambda/lambda_function.py   (namespace BatchLambda)
-/

/-! ## Python string primitives -/

/-- Python `str.split(sep)` for a one-character separator:
`"a/b".split('/') == ["a","b"]`, `"".split('/') == [""]`. -/
def splitChar (sep : Char) : List Char → List (List Char)
  | [] => [[]]
  | c :: rest =>
    match splitChar sep rest with
    | [] => [[]]
    | cur :: parts =>
      if c = sep then [] :: cur :: parts else (c :: cur) :: parts

/-- Index of the last occurrence of `c` (Python `str.rfind`, `none` for -1). -/
def lastIndexOf (c : Char) : List Char → Option Nat
  | [] => none
  | a :: rest =>
    match lastIndexOf c rest with
    | some i => some (i + 1)
    | none => if a = c then some 0 else none

/-- Python `os.path.splitext`: split at the last `'.'` that lies after the
last `'/'` and is preceded (within the basename) by some non-dot character. -/
def splitext (p : List Char) : List Char × List Char :=
  match lastIndexOf '.' p with
  | none => (p, [])
  | some di =>
    let si := match lastIndexOf '/' p with
      | none => 0
      | some j => j + 1
    if si ≤ di ∧ ∃ j, j ∈ List.range di ∧ si ≤ j ∧ p.getD j '.' ≠ '.' then
      (p.take di, p.drop di)
    else (p, [])

/-- Python `os.path.basename`: everything after the last `'/'`. -/
def basename (p : List Char) : List Char :=
  match lastIndexOf '/' p with
  | none => p
  | some i => p.drop (i + 1)

/-- Python `str.zfill(n)` for non-negative digit strings: left-pad with `'0'`. -/
def zfill (n : Nat) (s : List Char) : List Char :=
  List.replicate (n - s.length) '0' ++ s

/-- Python `str.isdigit` restricted to ASCII: nonempty and all decimal digits. -/
def pyIsdigit (s : List Char) : Bool :=
  !s.isEmpty && s.all (·.isDigit)

/-- Worker for `pyReplace`, structurally recursive on a fuel counter; each
step consumes at least one character, so `s.length` fuel always suffices. -/
def pyReplaceFuel (pat rep : List Char) : Nat → List Char → List Char
  | 0, s => s
  | _ + 1, [] => []
  | fuel + 1, c :: rest =>
    if pat.isPrefixOf (c :: rest) ∧ pat ≠ [] then
      rep ++ pyReplaceFuel pat rep fuel (rest.drop (pat.length - 1))
    else
      c :: pyReplaceFuel pat rep fuel rest

/-- Python `str.replace(pat, rep)`: replace all non-overlapping occurrences,
scanning left to right.  (Call sites only use nonempty patterns.) -/
def pyReplace (pat rep s : List Char) : List Char :=
  pyReplaceFuel pat rep s.length s

/-- Python substring test `needle in hay`. -/
def containsSub (hay needle : List Char) : Bool :=
  (List.range (hay.length + 1)).any (fun i => needle.isPrefixOf (hay.drop i))

/-- The key-decoding chain applied by both handlers:
`key.replace('%3A', ':').replace('%2B', '+').replace('%20', ' ')`. -/
def decodeKey (k : List Char) : List Char :=
  pyReplace "%20".data " ".data
    (pyReplace "%2B".data "+".data
      (pyReplace "%3A".data ":".data k))

/-! ## Extension tables shared verbatim by both modules -/

def RAW_EXTENSIONS : List (List Char) :=
  [".arw".data, ".cr2".data, ".cr3".data, ".dng".data, ".nef".data,
   ".nrw".data, ".orf".data, ".pef".data, ".raf".data, ".rw2".data,
   ".x3f".data, ".srw".data, ".kdc".data, ".dcr".data, ".raw".data,
   ".tiff".data, ".tif".data, ".3fr".data, ".mef".data, ".mrw".data,
   ".rwl".data, ".iiq".data, ".erf".data, ".mos".data, ".rwz".data]

def JPG_EXTENSIONS : List (List Char) :=
  [".jpg".data, ".jpeg".data]

/-- `get_file_extension`: lowercased extension from `os.path.splitext`. -/
def get_file_extension (filename : List Char) : List Char :=
  (splitext filename).2.map Char.toLower

def is_raw_file (filename : List Char) : Bool :=
  RAW_EXTENSIONS.contains (get_file_extension filename)

def is_jpg_file (filename : List Char) : Bool :=
  JPG_EXTENSIONS.contains (get_file_extension filename)

/-! ## Byte-string search (Python `bytes.find`) -/

/-- Worker: first index `≥ i` (counting from the original start) at which
`pat` occurs in the remaining suffix. -/
def findFromAux (pat : List Nat) : List Nat → Nat → Option Nat
  | [], i => if pat.isPrefixOf ([] : List Nat) then some i else none
  | d :: rest, i =>
    if pat.isPrefixOf (d :: rest) then some i else findFromAux pat rest (i + 1)

/-- Python `data.find(pat, start)`: index of the first occurrence of `pat`
at or after `start`, `none` for Python's `-1`. -/
def bytesFind (data pat : List Nat) (start : Nat) : Option Nat :=
  findFromAux pat (data.drop start) start

/-- `pat` occurs in `data` at offset `i`. -/
def occursAt (data pat : List Nat) (i : Nat) : Bool :=
  pat.isPrefixOf (data.drop i)

/-- Decoded image dimensions, the only raster state the claims depend on. -/
structure Raster where
  width : Nat
  height : Nat
deriving DecidableEq

/-! ## src/lambda_function_pil.py -/

namespace PilLambda

/-- Oracle environment for the PIL library calls made by
`src/lambda_function_pil.py`.  Raster pixel content is not tracked — only
the control-flow-relevant observations the module makes of PIL. -/
structure PILEnv where
  /-- `Image.open(io.BytesIO(b))` succeeds on byte string `b`. -/
  imageOpenOk : List Nat → Bool
  /-- `img.size` of the decoded image, when `imageOpenOk` holds. -/
  imageSize : List Nat → Raster
  /-- `process_tiff_file`'s convert/thumbnail/save tail after a successful
  `Image.open`; `none` when one of those library calls raises. -/
  tiffResult : List Nat → Option (List Nat)
  /-- `optimize_thumbnail`'s thumbnail-fit/exif-transpose/save-at-85 tail:
  input bytes and whether the resize branch was taken. -/
  reencode : List Nat → Bool → List Nat
  /-- `Image.new('RGB', (w, h), color).save(..., quality=q)` byte output for
  a flat-color raster, indexed by dimensions and quality. -/
  jpegEncodeRaster : Nat → Nat → Nat → List Nat

/-- Result of `extract_path_info` (this variant reads no category segment). -/
structure PathInfo where
  user_id : List Char
  year : List Char
  month : List Char
  day : List Char
deriving DecidableEq

/-- `extract_path_info` (lambda_function_pil.py lines 57-85): split the key
on `/`; fewer than 7 segments or a non-digit year/month/day is `None`;
month and day are zero-filled to width 2. -/
def extract_path_info (key : List Char) : Option PathInfo :=
  let path_parts := splitChar '/' key
  if path_parts.length < 7 then none
  else
    let user_id := path_parts.getD 1 []
    let year := path_parts.getD 3 []
    let month := path_parts.getD 4 []
    let day := path_parts.getD 5 []
    if pyIsdigit year && pyIsdigit month && pyIsdigit day then
      some ⟨user_id, year, zfill 2 month, zfill 2 day⟩
    else none

/-- `generate_thumbnail_path` (lines 87-97): destination is always under
`rawThumbnail`, filename stem suffixed with `_thumb.jpg`. -/
def generate_thumbnail_path (source_key filename : List Char) : Option (List Char) :=
  match extract_path_info source_key with
  | none => none
  | some info =>
    let thumbnail_filename := (splitext filename).1 ++ "_thumb.jpg".data
    some ("user/".data ++ info.user_id ++ "/rawThumbnail/".data ++ info.year ++
      "/".data ++ info.month ++ "/".data ++ info.day ++ "/".data ++ thumbnail_filename)

/-- JPEG start-of-image marker `b'\xff\xd8\xff'`. -/
def jpeg_start : List Nat := [0xff, 0xd8, 0xff]

/-- JPEG end-of-image marker `b'\xff\xd9'`. -/
def jpeg_end : List Nat := [0xff, 0xd9]

/-- `find_jpeg_data_in_raw` (lines 99-132): first SOI occurrence, then first
EOI occurrence at or after it; slice includes the end marker; the slice is
accepted only if `Image.open` succeeds on it, a failure yielding `None`. -/
def find_jpeg_data_in_raw (env : PILEnv) (raw_data : List Nat) : Option (List Nat) :=
  match bytesFind raw_data jpeg_start 0 with
  | none => none
  | some start_pos =>
    match bytesFind raw_data jpeg_end start_pos with
    | none => none
    | some end_pos =>
      let jpeg_data := (raw_data.drop start_pos).take (end_pos + 2 - start_pos)
      if env.imageOpenOk jpeg_data then some jpeg_data else none

/-- The module imports only `Image` and `ImageOps` from PIL (line 14), so the
name `ImageDraw` used at line 141 is unbound and raises `NameError`. -/
def imageDrawImported : Bool := false

/-- `create_placeholder_thumbnail` (lines 134-166).  The main path builds a
`(width, height)` gray raster and would draw a label (text-drawing failures
are swallowed by the inner try), encoding at quality 85; but the reference
to the unimported `ImageDraw` raises before the save, so the outer except
produces the 400×300 flat-color fallback encoded at quality 80. -/
def create_placeholder_thumbnail (env : PILEnv) (width height : Nat) : List Nat :=
  if imageDrawImported then
    env.jpegEncodeRaster width height 85
  else
    env.jpegEncodeRaster 400 300 80

/-- `process_tiff_file` (lines 168-188): open the bytes with PIL; a failed
open (or a failure in the convert/thumbnail/save tail) yields `None`. -/
def process_tiff_file (env : PILEnv) (raw_data : List Nat) : Option (List Nat) :=
  if env.imageOpenOk raw_data then env.tiffResult raw_data else none

/-- `process_raw_file` (lines 190-215): embedded-JPEG scan, then the TIFF
codec for `.tiff`/`.tif` extensions, then the placeholder; always returns
bytes. -/
def process_raw_file (env : PILEnv) (raw_data : List Nat) (extension : List Char) :
    List Nat :=
  match find_jpeg_data_in_raw env raw_data with
  | some jpeg_data => jpeg_data
  | none =>
    if extension.map Char.toLower = ".tiff".data ∨
        extension.map Char.toLower = ".tif".data then
      match process_tiff_file env raw_data with
      | some tiff_thumbnail => tiff_thumbnail
      | none => create_placeholder_thumbnail env 1200 800
    else
      create_placeholder_thumbnail env 1200 800

/-- `optimize_thumbnail` (lines 217-254): bytes strictly under 100 KiB are
returned untouched; otherwise the image is decoded and re-encoded (with a
thumbnail-fit when a dimension exceeds the bound), a PIL failure returning
the original bytes.  The second component records whether a re-encode
happened. -/
def optimize_thumbnail (env : PILEnv) (thumb_data : List Nat)
    (max_width max_height : Nat) : List Nat × Bool :=
  if thumb_data.length < 100 * 1024 then
    (thumb_data, false)
  else if env.imageOpenOk thumb_data then
    let img := env.imageSize thumb_data
    if img.width > max_width ∨ img.height > max_height then
      (env.reencode thumb_data true, true)
    else
      (env.reencode thumb_data false, true)
  else
    (thumb_data, false)

/-- One S3 event record, reduced to the fields this handler reads. -/
structure S3Record where
  bucket : List Char
  key : List Char
deriving DecidableEq

/-- Oracle for the boto3 calls of this handler. -/
structure S3Store where
  /-- `get_object(bucket, key)` body bytes; `none` when the call raises. -/
  getObject : List Char → List Char → Option (List Nat)
  /-- `put_object` succeeds. -/
  putObjectOk : Bool

/-- `lambda_handler` (lines 256-327), single-record: returns the status code
and, when an upload happened, the destination key and uploaded bytes. -/
def lambda_handler (env : PILEnv) (store : S3Store) (r : S3Record) :
    Nat × Option (List Char × List Nat) :=
  let key := decodeKey r.key
  let filename := basename key
  if ¬ is_raw_file filename then
    (200, none)
  else
    match generate_thumbnail_path key filename with
    | none => (400, none)
    | some thumbnail_key =>
      match store.getObject r.bucket key with
      | none => (500, none)
      | some raw_data =>
        let extension := get_file_extension filename
        let thumbnail_data := process_raw_file env raw_data extension
        let optimized_thumbnail := (optimize_thumbnail env thumbnail_data 1200 1200).1
        if store.putObjectOk then
          (200, some (thumbnail_key, optimized_thumbnail))
        else
          (500, none)

end PilLambda

/-! ## src/lambda/lambda_function.py -/

namespace BatchLambda

/-- Result of `extract_path_info` (lambda_function.py lines 68-99); this
variant also records the category segment `file_type`. -/
structure PathInfo where
  user_id : List Char
  file_type : List Char
  year : List Char
  month : List Char
  day : List Char
deriving DecidableEq

/-- `extract_path_info` (lines 68-99): split on `/`; fewer than 7 segments
or a non-digit year/month/day segment is `None`; month and day are
zero-filled to width 2.  The category segment is stored unvalidated. -/
def extract_path_info (key : List Char) : Option PathInfo :=
  let path_parts := splitChar '/' key
  if path_parts.length < 7 then none
  else
    let user_id := path_parts.getD 1 []
    let file_type := path_parts.getD 2 []
    let year := path_parts.getD 3 []
    let month := path_parts.getD 4 []
    let day := path_parts.getD 5 []
    if pyIsdigit year && pyIsdigit month && pyIsdigit day then
      some ⟨user_id, file_type, year, zfill 2 month, zfill 2 day⟩
    else none

/-- `generate_thumbnail_path` (lines 101-120): map `raw`→`rawThumbnail` and
`jpg`→`jpgThumbnail`, any other category yielding `None`; the filename stem
is suffixed with `_thumb.jpg`. -/
def generate_thumbnail_path (source_key filename : List Char) : Option (List Char) :=
  match extract_path_info source_key with
  | none => none
  | some info =>
    let thumbnail_dir : Option (List Char) :=
      if info.file_type = "raw".data then some "rawThumbnail".data
      else if info.file_type = "jpg".data then some "jpgThumbnail".data
      else none
    match thumbnail_dir with
    | none => none
    | some dir =>
      let thumbnail_filename := (splitext filename).1 ++ "_thumb.jpg".data
      some ("user/".data ++ info.user_id ++ "/".data ++ dir ++ "/".data ++
        info.year ++ "/".data ++ info.month ++ "/".data ++ info.day ++ "/".data ++
        thumbnail_filename)

/-- Dimension computation of the resize branch of `process_jpg_file`
(lines 181-193): long edge bounded by 800, the other dimension truncated
(`int(...)`, i.e. floor over the exact ratio). -/
def process_jpg_file_resize (img : Raster) : Raster :=
  if img.width > 800 ∨ img.height > 800 then
    if img.width > img.height then
      ⟨800, img.height * 800 / img.width⟩
    else
      ⟨img.width * 800 / img.height, 800⟩
  else img

/-- Oracle for the PIL encoding steps of `process_jpg_file`: the byte size
`os.path.getsize` observes after saving a raster at a given quality. -/
structure JpgEnv where
  encodeSize : Raster → Nat → Nat

/-- Save-quality trace of `process_jpg_file` (lines 196-208): save at
quality 80; iff the written size exceeds `100 * 1024`, save exactly once
more at `max(50, 80 - int((size - 100*1024) / (20*1024)))`.  Returns the
qualities of the `img.save` calls in order. -/
def process_jpg_file_encodes (env : JpgEnv) (img : Raster) : List Nat :=
  let resized := process_jpg_file_resize img
  let thumb_size := env.encodeSize resized 80
  if thumb_size > 100 * 1024 then
    [80, max 50 (80 - (thumb_size - 100 * 1024) / (20 * 1024))]
  else
    [80]

/-- Dimension computation of `optimize_thumbnail` (lines 216-246): when a
dimension exceeds its bound, clamp the larger dimension with `min` and
truncate the other along the exact aspect ratio (`int(...)`); otherwise the
image is untouched. -/
def optimize_thumbnail_resize (img : Raster) (max_width max_height : Nat) : Raster :=
  if img.width > max_width ∨ img.height > max_height then
    if img.width > img.height then
      let new_width := min img.width max_width
      ⟨new_width, new_width * img.height / img.width⟩
    else
      let new_height := min img.height max_height
      ⟨new_height * img.width / img.height, new_height⟩
  else img

/-- One S3 event record, reduced to the fields the batch handler reads. -/
structure S3Record where
  eventSource : List Char
  eventName : List Char
  bucket : List Char
  key : List Char
deriving DecidableEq

/-- Oracles for the external effects of one record's processing, keyed by
the decoded source key. -/
structure S3Env where
  /-- `download_file` succeeds (a `False` is a raised boto3 exception). -/
  download : List Char → List Char → Bool
  /-- `process_raw_file` on the downloaded temp file returns `True`. -/
  processRaw : List Char → Bool
  /-- `process_jpg_file` on the downloaded temp file returns `True`. -/
  processJpg : List Char → Bool
  /-- `optimize_thumbnail` returns `True` (its failure only logs a warning). -/
  optimizeOk : List Char → Bool
  /-- `upload_file` succeeds (a `False` is a raised boto3 exception). -/
  upload : List Char → List Char → List Char → Bool

/-- How the per-record body of `lambda_handler` exits. -/
inductive RecordOutcome
  /-- `eventSource`/`eventName` filter at line 255: `continue`. -/
  | skippedEvent
  /-- thumbnail-directory substring guard at lines 262-264: `continue`. -/
  | thumbnailSkip
  /-- neither RAW nor JPG extension (lines 275-277): `continue`. -/
  | unsupportedSkip
  /-- `generate_thumbnail_path` returned `None` (lines 281-283): `continue`. -/
  | pathFail
  /-- `process_raw_file` / `process_jpg_file` returned `False` (lines
  306-308): `continue`. -/
  | genFail
  /-- thumbnail uploaded (lines 315-321). -/
  | uploaded
  /-- an exception escaped the record body (download or upload failure),
  unwinding the `for` loop into the outer `except`. -/
  | raised
deriving DecidableEq

/-- The body of one iteration of the record loop (lines 254-329). -/
def processRecord (env : S3Env) (r : S3Record) : RecordOutcome :=
  if ¬ (r.eventSource = "aws:s3".data ∧
      "ObjectCreated".data.isPrefixOf r.eventName) then
    .skippedEvent
  else
    let key := decodeKey r.key
    if containsSub key "rawThumbnail".data ∨ containsSub key "jpgThumbnail".data then
      .thumbnailSkip
    else
      let filename := basename key
      let israw := is_raw_file filename
      let isjpg := is_jpg_file filename
      if ¬ (israw ∨ isjpg) then
        .unsupportedSkip
      else
        match generate_thumbnail_path key filename with
        | none => .pathFail
        | some thumbnail_key =>
          if ¬ env.download r.bucket key then
            .raised
          else
            let success := if israw then env.processRaw key else env.processJpg key
            if ¬ success then
              .genFail
            else if env.upload r.bucket key thumbnail_key then
              .uploaded
            else
              .raised

/-- The record loop (lines 254-329): strictly sequential; a raised exception
stops the loop (control transfers to the handler-level `except`), any other
outcome falls through to the next record. -/
def runRecords (env : S3Env) : List S3Record → List (S3Record × RecordOutcome)
  | [] => []
  | r :: rest =>
    let o := processRecord env r
    if o = RecordOutcome.raised then [(r, o)]
    else (r, o) :: runRecords env rest

/-- `lambda_handler` (lines 248-341): 200 after the loop completes, 500 when
an exception reached the outer `except`. -/
def lambda_handler (env : S3Env) (records : List S3Record) : Nat :=
  if (runRecords env records).any (fun p => p.2 = RecordOutcome.raised) then 500
  else 200

end BatchLambda

/-! ## First-occurrence characterization of `bytesFind` -/

/-- `i` is the first offset at or after `s` where `pat` occurs in `data`. -/
def isFirstMatchFrom (data pat : List Nat) (s i : Nat) : Prop :=
  s ≤ i ∧ occursAt data pat i = true ∧
    ∀ j, s ≤ j → j < i → occursAt data pat j = false

lemma findFromAux_some (pat : List Nat) :
    ∀ (l : List Nat) (i k : Nat), i ≤ k →
      pat.isPrefixOf (l.drop (k - i)) = true →
      (∀ j, j < k - i → pat.isPrefixOf (l.drop j) = false) →
      findFromAux pat l i = some k := by
  intro l
  induction l with
  | nil =>
    intro i k hik hpre _hall
    rcases Nat.eq_or_lt_of_le hik with heq | hlt
    · subst heq
      simp only [List.drop_nil] at hpre
      simp [findFromAux, hpre]
    · simp only [List.drop_nil] at hpre _hall
      have := _hall 0 (by omega)
      simp [this] at hpre
  | cons d rest ih =>
    intro i k hik hpre hall
    rcases Nat.eq_or_lt_of_le hik with heq | hlt
    · subst heq
      simp only [Nat.sub_self, List.drop_zero] at hpre
      simp [findFromAux, hpre]
    · have h0 : pat.isPrefixOf (d :: rest) = false := by
        have := hall 0 (by omega)
        simpa using this
      obtain ⟨m, hm⟩ : ∃ m, k - i = m + 1 := ⟨k - i - 1, by omega⟩
      rw [hm, List.drop_succ_cons] at hpre
      have hnext : findFromAux pat rest (i + 1) = some k := by
        apply ih (i + 1) k (by omega)
        · have hidx : k - (i + 1) = m := by omega
          rw [hidx]; exact hpre
        · intro j hj
          have := hall (j + 1) (by omega)
          simpa [List.drop_succ_cons] using this
      simp [findFromAux, h0, hnext]

lemma findFromAux_none (pat : List Nat) :
    ∀ (l : List Nat) (i : Nat),
      (∀ j, pat.isPrefixOf (l.drop j) = false) →
      findFromAux pat l i = none := by
  intro l
  induction l with
  | nil =>
    intro i h
    have := h 0
    simp only [List.drop_nil] at this
    simp [findFromAux, this]
  | cons d rest ih =>
    intro i h
    have h0 : pat.isPrefixOf (d :: rest) = false := by simpa using h 0
    have hnext : findFromAux pat rest (i + 1) = none := by
      apply ih
      intro j
      simpa [List.drop_succ_cons] using h (j + 1)
    simp [findFromAux, h0, hnext]

lemma bytesFind_eq_some (data pat : List Nat) (s k : Nat)
    (h : isFirstMatchFrom data pat s k) : bytesFind data pat s = some k := by
  obtain ⟨hsk, hocc, hfirst⟩ := h
  unfold bytesFind
  apply findFromAux_some pat (data.drop s) s k hsk
  · rw [List.drop_drop]
    have hidx : s + (k - s) = k := by omega
    rw [hidx]
    exact hocc
  · intro j hj
    rw [List.drop_drop]
    have := hfirst (s + j) (by omega) (by omega)
    simpa [occursAt] using this

lemma bytesFind_eq_none (data pat : List Nat) (s : Nat)
    (h : ∀ i, s ≤ i → occursAt data pat i = false) :
    bytesFind data pat s = none := by
  unfold bytesFind
  apply findFromAux_none
  intro j
  rw [List.drop_drop]
  have := h (s + j) (by omega)
  simpa [occursAt] using this

/-! ## Concrete test fixtures -/

/-- Batch effect environment in which every external call succeeds. -/
def allOkEnv : BatchLambda.S3Env :=
  ⟨fun _ _ => true, fun _ => true, fun _ => true, fun _ => true, fun _ _ _ => true⟩

/-- Batch effect environment whose `download_file` always raises. -/
def dlFailEnv : BatchLambda.S3Env :=
  ⟨fun _ _ => false, fun _ => true, fun _ => true, fun _ => true, fun _ _ _ => true⟩

/-- An eligible record whose key has only 4 path segments. -/
def shortKeyRecord : BatchLambda.S3Record :=
  ⟨"aws:s3".data, "ObjectCreated:Put".data, "bucket".data,
   "user/u1/raw/file.cr2".data⟩

/-- An eligible record with a fully well-formed RAW key. -/
def okRawRecord : BatchLambda.S3Record :=
  ⟨"aws:s3".data, "ObjectCreated:Put".data, "bucket".data,
   "user/u1/raw/2023/04/05/a.arw".data⟩

/-- An eligible record with a fully well-formed JPG key. -/
def okJpgRecord : BatchLambda.S3Record :=
  ⟨"aws:s3".data, "ObjectCreated:Put".data, "bucket".data,
   "user/u2/jpg/2023/04/05/b.jpg".data⟩

/-- An eligible record whose userId segment merely contains the substring
`rawThumbnail` while the category segment is the valid source category `jpg`. -/
def fanRecord : BatchLambda.S3Record :=
  ⟨"aws:s3".data, "ObjectCreated:Put".data, "bucket".data,
   "user/rawThumbnailFan/jpg/2023/04/05/a.jpg".data⟩

/-- Batch effect environment whose transfers succeed but whose thumbnail
generation (`process_raw_file`/`process_jpg_file`) always returns False. -/
def genFailEnv : BatchLambda.S3Env :=
  ⟨fun _ _ => true, fun _ => false, fun _ => false, fun _ => true, fun _ _ _ => true⟩

/-- PIL environment in which `Image.open` always succeeds on a 1×1 image. -/
def pilOpenEnv : PilLambda.PILEnv :=
  ⟨fun _ => true, fun _ => ⟨1, 1⟩, fun _ => none, fun _ _ => [], fun _ _ _ => [7]⟩

/-- PIL environment in which `Image.open` always fails (so the embedded-JPEG
validation and the TIFF open both fail). -/
def pilScanFailEnv : PilLambda.PILEnv :=
  ⟨fun _ => false, fun _ => ⟨1, 1⟩, fun _ => none, fun _ _ => [], fun _ _ _ => [9]⟩

/-- Storage oracle delivering marker-bearing but undecodable RAW bytes. -/
def pilStore : PilLambda.S3Store :=
  ⟨fun _ _ => some [0xff, 0xd8, 0xff, 0xd9], true⟩

/-- Single record for the PIL handler. -/
def pilRecord : PilLambda.S3Record :=
  ⟨"bucket".data, "user/u1/raw/2023/04/05/a.arw".data⟩

/-! ## Claim theorems -/

/-- C4: for every 7-segment source key whose date segments are digits and
whose category is `raw` or `jpg`, `generate_thumbnail_path` maps the
category to `rawThumbnail`/`jpgThumbnail`, zero-pads month and day to width
2, and replaces the filename's extension with `_thumb.jpg`. -/
theorem destination_derivation_C4
    (key p0 u c y m d f : List Char)
    (hsplit : splitChar '/' key = [p0, u, c, y, m, d, f])
    (hy : pyIsdigit y = true) (hm : pyIsdigit m = true) (hd : pyIsdigit d = true)
    (hc : c = "raw".data ∨ c = "jpg".data) :
    BatchLambda.generate_thumbnail_path key f =
      some ("user/".data ++ u ++ "/".data ++
        (if c = "raw".data then "rawThumbnail".data else "jpgThumbnail".data) ++
        "/".data ++ y ++ "/".data ++ zfill 2 m ++ "/".data ++ zfill 2 d ++
        "/".data ++ (splitext f).1 ++ "_thumb.jpg".data) := by
  unfold BatchLambda.generate_thumbnail_path BatchLambda.extract_path_info
  rw [hsplit]
  simp only [List.length_cons, List.length_nil, List.getD, List.get?]
  norm_num
  rcases hc with hcr | hcj
  · subst hcr
    simp [hy, hm, hd]
  · subst hcj
    simp [hy, hm, hd]

/-- C4 witness: the concrete scenario key from the spec. -/
theorem destination_derivation_C4_witness :
    BatchLambda.generate_thumbnail_path
        "user/u1/raw/2023/4/5/IMG_01.CR2".data "IMG_01.CR2".data =
      some "user/u1/rawThumbnail/2023/04/05/IMG_01_thumb.jpg".data := by
  have h := destination_derivation_C4 "user/u1/raw/2023/4/5/IMG_01.CR2".data
    "user".data "u1".data "raw".data "2023".data "4".data "5".data
    "IMG_01.CR2".data (by decide) (by decide) (by decide) (by decide)
    (Or.inl rfl)
  rw [h]
  decide

/-- C3 counterexample: in the batch handler an eligible record whose key has
only 4 segments is skipped with `continue` and the invocation returns
statusCode 200, not the claimed 400. -/
theorem short_key_status_C3_cex :
    BatchLambda.processRecord allOkEnv shortKeyRecord =
      BatchLambda.RecordOutcome.pathFail ∧
    BatchLambda.lambda_handler allOkEnv [shortKeyRecord] = 200 ∧
    BatchLambda.lambda_handler allOkEnv [shortKeyRecord] ≠ 400 := by
  refine ⟨by decide, by decide, by decide⟩

/-- C3 (amended): `generate_thumbnail_path` fails exactly when the key has
fewer than 7 `/`-segments, a non-digit year/month/day segment, or an
unrecognized category segment; in the batch handler such a record is
skipped (`continue`) with the batch proceeding to the next record and the
invocation status unchanged — the 400 status exists only in the
single-record variant (`lambda_function_pil.py`), where there is no batch. -/
theorem path_parse_failure_amended_C3 :
    (∀ key filename : List Char,
      BatchLambda.generate_thumbnail_path key filename = none ↔
        ((splitChar '/' key).length < 7 ∨
         pyIsdigit ((splitChar '/' key).getD 3 []) = false ∨
         pyIsdigit ((splitChar '/' key).getD 4 []) = false ∨
         pyIsdigit ((splitChar '/' key).getD 5 []) = false ∨
         ((splitChar '/' key).getD 2 [] ≠ "raw".data ∧
          (splitChar '/' key).getD 2 [] ≠ "jpg".data))) ∧
    (∀ (env : BatchLambda.S3Env) (r : BatchLambda.S3Record)
        (rest : List BatchLambda.S3Record),
      BatchLambda.processRecord env r = BatchLambda.RecordOutcome.pathFail →
      BatchLambda.runRecords env (r :: rest) =
        (r, BatchLambda.RecordOutcome.pathFail) :: BatchLambda.runRecords env rest ∧
      BatchLambda.lambda_handler env (r :: rest) =
        BatchLambda.lambda_handler env rest) ∧
    (∀ (env : PilLambda.PILEnv) (store : PilLambda.S3Store) (b : List Char),
      PilLambda.lambda_handler env store ⟨b, "user/u1/raw/file.cr2".data⟩ =
        (400, none)) := by
  refine ⟨?_, ?_, ?_⟩
  · intro key filename
    unfold BatchLambda.generate_thumbnail_path BatchLambda.extract_path_info
    generalize splitChar '/' key = parts
    simp only [List.getD]
    by_cases h7 : parts.length < 7
    · simp [h7]
    · by_cases hy : pyIsdigit (parts[3]?.getD []) = true
      · by_cases hm : pyIsdigit (parts[4]?.getD []) = true
        · by_cases hd : pyIsdigit (parts[5]?.getD []) = true
          · by_cases hr : parts[2]?.getD [] = "raw".data
            · simp [h7, hy, hm, hd, hr]
            · by_cases hj : parts[2]?.getD [] = "jpg".data
              · simp [h7, hy, hm, hd, hr, hj]
              · simp [h7, hy, hm, hd, hr, hj]
          · simp only [Bool.not_eq_true] at hd
            simp [h7, hy, hm, hd]
        · simp only [Bool.not_eq_true] at hm
          simp [h7, hy, hm]
      · simp only [Bool.not_eq_true] at hy
        simp [h7, hy]
  · intro env r rest h
    have hrun : BatchLambda.runRecords env (r :: rest) =
        (r, BatchLambda.RecordOutcome.pathFail) :: BatchLambda.runRecords env rest := by
      simp [BatchLambda.runRecords, h]
    refine ⟨hrun, ?_⟩
    unfold BatchLambda.lambda_handler
    rw [hrun]
    simp only [List.any_cons,
      show decide (BatchLambda.RecordOutcome.pathFail =
        BatchLambda.RecordOutcome.raised) = false from by decide,
      Bool.false_or]
  · intro env store b
    unfold PilLambda.lambda_handler
    rw [show decodeKey "user/u1/raw/file.cr2".data =
      "user/u1/raw/file.cr2".data from by decide]
    rw [if_neg (by decide)]
    rw [show PilLambda.generate_thumbnail_path "user/u1/raw/file.cr2".data
      (basename "user/u1/raw/file.cr2".data) = none from by decide]

/-- C3 witness: the iff at a 4-segment key, and the batch continuing past a
path-format failure to process the following well-formed record. -/
theorem path_parse_failure_amended_C3_witness :
    BatchLambda.generate_thumbnail_path "user/u1/raw/file.cr2".data
      "file.cr2".data = none ∧
    BatchLambda.runRecords allOkEnv [shortKeyRecord, okRawRecord] =
      (shortKeyRecord, BatchLambda.RecordOutcome.pathFail) ::
        BatchLambda.runRecords allOkEnv [okRawRecord] ∧
    PilLambda.lambda_handler pilScanFailEnv pilStore
      ⟨"bucket".data, "user/u1/raw/file.cr2".data⟩ = (400, none) :=
  ⟨(path_parse_failure_amended_C3.1 "user/u1/raw/file.cr2".data
      "file.cr2".data).mpr (by decide),
   ((path_parse_failure_amended_C3.2.1 allOkEnv shortKeyRecord [okRawRecord])
      (by decide)).1,
   path_parse_failure_amended_C3.2.2 pilScanFailEnv pilStore "bucket".data⟩

/-- Helper: when every download and upload succeeds, no record body raises. -/
lemma processRecord_not_raised (env : BatchLambda.S3Env) (r : BatchLambda.S3Record)
    (hdl : ∀ b k, env.download b k = true)
    (hup : ∀ b k t, env.upload b k t = true) :
    BatchLambda.processRecord env r ≠ BatchLambda.RecordOutcome.raised := by
  unfold BatchLambda.processRecord
  simp only [hdl, hup]
  repeat' split
  all_goals simp_all

/-- Helper: under all-succeeding transfers the loop visits every record in
order, reporting each outcome, and the handler returns 200. -/
lemma runRecords_all_visited (env : BatchLambda.S3Env)
    (hdl : ∀ b k, env.download b k = true)
    (hup : ∀ b k t, env.upload b k t = true) :
    ∀ records : List BatchLambda.S3Record,
      BatchLambda.runRecords env records =
        records.map (fun r => (r, BatchLambda.processRecord env r)) ∧
      BatchLambda.lambda_handler env records = 200 := by
  intro records
  have hrun : BatchLambda.runRecords env records =
      records.map (fun r => (r, BatchLambda.processRecord env r)) := by
    induction records with
    | nil => rfl
    | cons r rest ih =>
      have hne := processRecord_not_raised env r hdl hup
      simp [BatchLambda.runRecords, hne, ih]
  refine ⟨hrun, ?_⟩
  unfold BatchLambda.lambda_handler
  rw [hrun]
  have hany : (records.map (fun r => (r, BatchLambda.processRecord env r))).any
      (fun p => p.2 = BatchLambda.RecordOutcome.raised) = false := by
    rw [List.any_eq_false]
    intro p hp
    rw [List.mem_map] at hp
    obtain ⟨r, _, hr⟩ := hp
    subst hr
    simpa using processRecord_not_raised env r hdl hup
  rw [hany]
  simp

/-- C2 counterexample: a download failure on the first record raises, so the
second record is never attempted and the invocation returns 500 — one
record's failure does abort the rest of the batch. -/
theorem batch_abort_C2_cex :
    BatchLambda.runRecords dlFailEnv [okRawRecord, okJpgRecord] =
      [(okRawRecord, BatchLambda.RecordOutcome.raised)] ∧
    BatchLambda.lambda_handler dlFailEnv [okRawRecord, okJpgRecord] = 500 := by
  refine ⟨by decide, by decide⟩

/-- C2 (amended): records are processed strictly sequentially; a thumbnail
generation failure (`process_raw_file`/`process_jpg_file` returning False)
only skips that record, and when every download and upload succeeds all
records are visited in order with the invocation returning 200; but a
record whose download or upload raises stops the loop — later records are
not attempted and the invocation returns 500. -/
theorem batch_isolation_amended_C2 :
    (∀ (env : BatchLambda.S3Env) (records : List BatchLambda.S3Record),
      (∀ b k, env.download b k = true) →
      (∀ b k t, env.upload b k t = true) →
      BatchLambda.runRecords env records =
        records.map (fun r => (r, BatchLambda.processRecord env r)) ∧
      BatchLambda.lambda_handler env records = 200) ∧
    (∀ (env : BatchLambda.S3Env) (r : BatchLambda.S3Record)
        (rest : List BatchLambda.S3Record),
      BatchLambda.processRecord env r = BatchLambda.RecordOutcome.raised →
      BatchLambda.runRecords env (r :: rest) =
        [(r, BatchLambda.RecordOutcome.raised)] ∧
      BatchLambda.lambda_handler env (r :: rest) = 500) := by
  constructor
  · intro env records hdl hup
    exact runRecords_all_visited env hdl hup records
  · intro env r rest h
    have hrun : BatchLambda.runRecords env (r :: rest) =
        [(r, BatchLambda.RecordOutcome.raised)] := by
      simp [BatchLambda.runRecords, h]
    refine ⟨hrun, ?_⟩
    unfold BatchLambda.lambda_handler
    rw [hrun]
    simp

/-- C2 witness: a batch with one generation-failing record and one clean
record, all transfers succeeding: both records are visited and the
invocation returns 200. -/
theorem batch_isolation_amended_C2_witness :
    BatchLambda.runRecords genFailEnv [okRawRecord, okJpgRecord] =
      [(okRawRecord, BatchLambda.RecordOutcome.genFail),
       (okJpgRecord, BatchLambda.RecordOutcome.genFail)] ∧
    BatchLambda.lambda_handler genFailEnv [okRawRecord, okJpgRecord] = 200 := by
  have h := batch_isolation_amended_C2.1 genFailEnv [okRawRecord, okJpgRecord]
    (fun _ _ => rfl) (fun _ _ _ => rfl)
  refine ⟨h.1.trans (by decide), h.2⟩

/-- C10: the thumbnail re-entry guard is a substring test over the whole
decoded key — any eligible record whose decoded key contains
`rawThumbnail` or `jpgThumbnail` anywhere is skipped before the category
segment or extension is even examined. -/
theorem thumbnail_guard_substring_C10
    (env : BatchLambda.S3Env) (r : BatchLambda.S3Record)
    (hsrc : r.eventSource = "aws:s3".data)
    (hname : "ObjectCreated".data.isPrefixOf r.eventName = true)
    (hguard : containsSub (decodeKey r.key) "rawThumbnail".data = true ∨
      containsSub (decodeKey r.key) "jpgThumbnail".data = true) :
    BatchLambda.processRecord env r = BatchLambda.RecordOutcome.thumbnailSkip := by
  unfold BatchLambda.processRecord
  rw [if_neg (by simp [hsrc, hname])]
  rcases hguard with h | h <;> simp [h]

/-- C10 witness: the key `user/rawThumbnailFan/jpg/2023/04/05/a.jpg` is
skipped although its category segment is the valid source category `jpg`
and its filename has a supported JPG extension. -/
theorem thumbnail_guard_substring_C10_witness :
    BatchLambda.processRecord allOkEnv fanRecord =
      BatchLambda.RecordOutcome.thumbnailSkip ∧
    (splitChar '/' (decodeKey fanRecord.key)).getD 2 [] = "jpg".data ∧
    is_jpg_file (basename (decodeKey fanRecord.key)) = true :=
  ⟨thumbnail_guard_substring_C10 allOkEnv fanRecord (by decide) (by decide)
      (Or.inl (by decide)),
   by decide, by decide⟩

/-- The per-dimension resize rule in the words of the claim:
`round(other * (bound / limiting))`, nearest-integer rounding (half-up;
the inputs compared below are not at a tie). -/
def claimResizeOther (other bound limiting : Nat) : Nat :=
  (2 * (other * bound) + limiting) / (2 * limiting)

/-- C6 counterexample: `optimize_thumbnail` computes the non-limiting
dimension with `int(...)` truncation, not `round(...)`: a 1602×1001 image
resized into a 1200×1200 bound gets height 749, while the claimed rounding
formula gives 750. -/
theorem resize_round_C6_cex :
    (BatchLambda.optimize_thumbnail_resize ⟨1602, 1001⟩ 1200 1200).height = 749 ∧
    claimResizeOther 1001 1200 1602 = 750 ∧
    (BatchLambda.optimize_thumbnail_resize ⟨1602, 1001⟩ 1200 1200).height ≠
      claimResizeOther 1001 1200 1602 := by
  refine ⟨by decide, by decide, by decide⟩

/-- C6 (amended): images within the 1200×1200 bound are not resized; the
resize never increases either dimension; and when a dimension exceeds the
bound the limiting (larger) dimension is set to 1200 while the other is
`floor(other * 1200 / limiting)` — truncation rather than the claimed
nearest-integer rounding — which still preserves the aspect ratio within
one pixel (`new * limiting ≤ 1200 * other < (new + 1) * limiting`). -/
theorem resize_bound_amended_C6 (img : Raster) :
    (img.width ≤ 1200 ∧ img.height ≤ 1200 →
      BatchLambda.optimize_thumbnail_resize img 1200 1200 = img) ∧
    ((BatchLambda.optimize_thumbnail_resize img 1200 1200).width ≤ img.width ∧
     (BatchLambda.optimize_thumbnail_resize img 1200 1200).height ≤ img.height) ∧
    (img.width > img.height → (img.width > 1200 ∨ img.height > 1200) →
      (BatchLambda.optimize_thumbnail_resize img 1200 1200).width = 1200 ∧
      (BatchLambda.optimize_thumbnail_resize img 1200 1200).height =
        1200 * img.height / img.width ∧
      (BatchLambda.optimize_thumbnail_resize img 1200 1200).height * img.width ≤
        1200 * img.height ∧
      1200 * img.height <
        ((BatchLambda.optimize_thumbnail_resize img 1200 1200).height + 1) *
          img.width) ∧
    (img.width ≤ img.height → (img.width > 1200 ∨ img.height > 1200) →
      (BatchLambda.optimize_thumbnail_resize img 1200 1200).height = 1200 ∧
      (BatchLambda.optimize_thumbnail_resize img 1200 1200).width =
        1200 * img.width / img.height ∧
      (BatchLambda.optimize_thumbnail_resize img 1200 1200).width * img.height ≤
        1200 * img.width ∧
      1200 * img.width <
        ((BatchLambda.optimize_thumbnail_resize img 1200 1200).width + 1) *
          img.height) := by
  obtain ⟨w, h⟩ := img
  unfold BatchLambda.optimize_thumbnail_resize
  dsimp only
  refine ⟨?_, ?_, ?_, ?_⟩
  · rintro ⟨hw, hh⟩
    rw [if_neg (by omega)]
  · by_cases htrig : w > 1200 ∨ h > 1200
    · rw [if_pos htrig]
      by_cases hwh : w > h
      · rw [if_pos hwh]
        have hw0 : 0 < w := by omega
        refine ⟨min_le_left w 1200, ?_⟩
        calc min w 1200 * h / w ≤ w * h / w :=
              Nat.div_le_div_right (Nat.mul_le_mul_right h (min_le_left w 1200))
          _ = h := Nat.mul_div_cancel_left h hw0
      · rw [if_neg hwh]
        have hh0 : 0 < h := by omega
        refine ⟨?_, min_le_left h 1200⟩
        calc min h 1200 * w / h ≤ h * w / h :=
              Nat.div_le_div_right (Nat.mul_le_mul_right w (min_le_left h 1200))
          _ = w := Nat.mul_div_cancel_left w hh0
    · rw [if_neg htrig]
      exact ⟨Nat.le_refl w, Nat.le_refl h⟩
  · intro hwh htrig
    have hw1200 : w > 1200 := by omega
    rw [if_pos htrig, if_pos hwh]
    have hmin : min w 1200 = 1200 := by omega
    dsimp only
    rw [hmin]
    refine ⟨rfl, rfl, Nat.div_mul_le_self (1200 * h) w, ?_⟩
    have hdm := Nat.div_add_mod (1200 * h) w
    have hlt := Nat.mod_lt (1200 * h) (show 0 < w by omega)
    have hexp : (1200 * h / w + 1) * w = w * (1200 * h / w) + w := by ring
    rw [hexp]
    omega
  · intro hwh htrig
    have hwh2 : ¬ w > h := by omega
    have hh1200 : h > 1200 := by omega
    rw [if_pos htrig, if_neg hwh2]
    have hmin : min h 1200 = 1200 := by omega
    dsimp only
    rw [hmin]
    refine ⟨rfl, rfl, Nat.div_mul_le_self (1200 * w) h, ?_⟩
    have hdm := Nat.div_add_mod (1200 * w) h
    have hlt := Nat.mod_lt (1200 * w) (show 0 < h by omega)
    have hexp : (1200 * w / h + 1) * h = h * (1200 * w / h) + h := by ring
    rw [hexp]
    omega

/-- C6 witness: the amended floor formula at the 1602×1001 instance. -/
theorem resize_bound_amended_C6_witness :
    (BatchLambda.optimize_thumbnail_resize ⟨1602, 1001⟩ 1200 1200).width = 1200 ∧
    (BatchLambda.optimize_thumbnail_resize ⟨1602, 1001⟩ 1200 1200).height =
      1200 * 1001 / 1602 :=
  ⟨((resize_bound_amended_C6 ⟨1602, 1001⟩).2.2.1 (by decide) (by decide)).1,
   ((resize_bound_amended_C6 ⟨1602, 1001⟩).2.2.1 (by decide) (by decide)).2.1⟩

/-- C7: `process_jpg_file` saves first at quality 80; if and only if that
save exceeds 100 KiB it saves exactly once more at
`max(50, 80 - floor((size - 100KiB) / 20KiB))` — never a third time; and
the spec scenario 3000×2000 resizes to 800×533. -/
theorem jpg_single_shot_C7 (env : BatchLambda.JpgEnv) (img : Raster) :
    (env.encodeSize (BatchLambda.process_jpg_file_resize img) 80 ≤ 100 * 1024 →
      BatchLambda.process_jpg_file_encodes env img = [80]) ∧
    (100 * 1024 < env.encodeSize (BatchLambda.process_jpg_file_resize img) 80 →
      BatchLambda.process_jpg_file_encodes env img =
        [80, max 50 (80 -
          (env.encodeSize (BatchLambda.process_jpg_file_resize img) 80 -
            100 * 1024) / (20 * 1024))]) ∧
    BatchLambda.process_jpg_file_resize ⟨3000, 2000⟩ = ⟨800, 533⟩ := by
  refine ⟨?_, ?_, by decide⟩
  · intro hle
    unfold BatchLambda.process_jpg_file_encodes
    rw [if_neg (by omega)]
  · intro hgt
    unfold BatchLambda.process_jpg_file_encodes
    rw [if_pos (by omega)]

/-- Fixed-size encoder delivering 200000-byte saves. -/
def bigJpgEnv : BatchLambda.JpgEnv := ⟨fun _ _ => 200000⟩

/-- C7 witness: a 200000-byte quality-80 save triggers exactly one re-encode
at quality `max 50 (80 - (200000 - 102400) / 20480) = 76`. -/
theorem jpg_single_shot_C7_witness :
    BatchLambda.process_jpg_file_encodes bigJpgEnv ⟨3000, 2000⟩ = [80, 76] := by
  have h := (jpg_single_shot_C7 bigJpgEnv ⟨3000, 2000⟩).2.1 (by decide)
  rw [h]
  decide

/-- Bytes of length exactly 100 KiB. -/
def bytes100KiB : List Nat := List.replicate (100 * 1024) 0

/-- C8 counterexample: at exactly 102400 bytes the fast path is not taken
(the gate is strict `<`): with PIL decoding the data, `optimize_thumbnail`
re-encodes and its output differs from its input, refuting the claim's
"at most 100 KiB is the identity with no re-encoding". -/
theorem passthrough_boundary_C8_cex :
    bytes100KiB.length ≤ 100 * 1024 ∧
    (PilLambda.optimize_thumbnail pilOpenEnv bytes100KiB 1200 1200).2 = true ∧
    (PilLambda.optimize_thumbnail pilOpenEnv bytes100KiB 1200 1200).1 ≠
      bytes100KiB := by
  have hlen : bytes100KiB.length = 100 * 1024 := by
    unfold bytes100KiB
    exact List.length_replicate _ _
  have hopt : PilLambda.optimize_thumbnail pilOpenEnv bytes100KiB 1200 1200 =
      ([], true) := by
    unfold PilLambda.optimize_thumbnail
    rw [if_neg (by omega), if_pos (by decide)]
    rw [if_neg (by decide)]
    rfl
  refine ⟨by omega, by rw [hopt], ?_⟩
  rw [hopt]
  intro hcon
  have := congrArg List.length hcon
  simp [hlen] at this

/-- C8 (amended): the pass-through holds for inputs strictly under 100 KiB:
for every byte string of length less than 102400 the optimization pass
returns the input bytes unchanged with no re-encode. -/
theorem passthrough_strict_amended_C8 (env : PilLambda.PILEnv)
    (thumb_data : List Nat) (max_width max_height : Nat)
    (h : thumb_data.length < 100 * 1024) :
    PilLambda.optimize_thumbnail env thumb_data max_width max_height =
      (thumb_data, false) := by
  unfold PilLambda.optimize_thumbnail
  rw [if_pos h]

/-- C8 witness: a 3-byte input passes through untouched. -/
theorem passthrough_strict_amended_C8_witness :
    PilLambda.optimize_thumbnail pilOpenEnv [1, 2, 3] 1200 1200 =
      ([1, 2, 3], false) :=
  passthrough_strict_amended_C8 pilOpenEnv [1, 2, 3] 1200 1200 (by decide)

/-- C9: `create_placeholder_thumbnail` is total by construction and, because
the module never imports `ImageDraw`, its drawing step is unavailable and
every call returns the 400×300 flat-color fallback encoded at quality 80 —
bytes that decode as a valid JPEG whenever PIL decodes its own encoder
output. -/
theorem placeholder_total_valid_C9 (env : PilLambda.PILEnv)
    (henc : ∀ w h q, env.imageOpenOk (env.jpegEncodeRaster w h q) = true)
    (width height : Nat) :
    PilLambda.create_placeholder_thumbnail env width height =
      env.jpegEncodeRaster 400 300 80 ∧
    env.imageOpenOk (PilLambda.create_placeholder_thumbnail env width height) =
      true := by
  refine ⟨?_, ?_⟩
  · unfold PilLambda.create_placeholder_thumbnail PilLambda.imageDrawImported
    simp
  · unfold PilLambda.create_placeholder_thumbnail PilLambda.imageDrawImported
    simp [henc]

/-- C9 witness: the generator at the default 1200×800 call under an
all-decoding PIL environment. -/
theorem placeholder_total_valid_C9_witness :
    PilLambda.create_placeholder_thumbnail pilOpenEnv 1200 800 =
      pilOpenEnv.jpegEncodeRaster 400 300 80 ∧
    pilOpenEnv.imageOpenOk
      (PilLambda.create_placeholder_thumbnail pilOpenEnv 1200 800) = true :=
  placeholder_total_valid_C9 pilOpenEnv (fun _ _ _ => rfl) 1200 800

/-- C5: the embedded-JPEG scan finds the first occurrence of the 3-byte SOI
marker, then the first occurrence of the 2-byte EOI marker at or after that
offset; a missing marker yields not-found (scan is a total function, never
an exception); when both are found, the slice through the end marker is
returned exactly when a PIL decode of it succeeds, a failed decode being
not-found. -/
theorem jpeg_scan_spec_C5 (env : PilLambda.PILEnv) (raw_data : List Nat) :
    ((∀ i, occursAt raw_data PilLambda.jpeg_start i = false) →
      PilLambda.find_jpeg_data_in_raw env raw_data = none) ∧
    (∀ s, isFirstMatchFrom raw_data PilLambda.jpeg_start 0 s →
      ((∀ e, s ≤ e → occursAt raw_data PilLambda.jpeg_end e = false) →
        PilLambda.find_jpeg_data_in_raw env raw_data = none) ∧
      (∀ e, isFirstMatchFrom raw_data PilLambda.jpeg_end s e →
        PilLambda.find_jpeg_data_in_raw env raw_data =
          (if env.imageOpenOk ((raw_data.drop s).take (e + 2 - s)) then
            some ((raw_data.drop s).take (e + 2 - s))
          else none))) := by
  constructor
  · intro h
    have hnone : bytesFind raw_data PilLambda.jpeg_start 0 = none :=
      bytesFind_eq_none raw_data PilLambda.jpeg_start 0 (fun i _ => h i)
    unfold PilLambda.find_jpeg_data_in_raw
    rw [hnone]
  · intro s hs
    have hsoi : bytesFind raw_data PilLambda.jpeg_start 0 = some s :=
      bytesFind_eq_some raw_data PilLambda.jpeg_start 0 s hs
    constructor
    · intro h
      have heoi : bytesFind raw_data PilLambda.jpeg_end s = none :=
        bytesFind_eq_none raw_data PilLambda.jpeg_end s h
      unfold PilLambda.find_jpeg_data_in_raw
      simp only [hsoi, heoi]
    · intro e he
      have heoi : bytesFind raw_data PilLambda.jpeg_end s = some e :=
        bytesFind_eq_some raw_data PilLambda.jpeg_end s e he
      unfold PilLambda.find_jpeg_data_in_raw
      simp only [hsoi, heoi]

/-- C5 witness: on `FF D8 FF D9` the first SOI offset is 0, the first EOI
offset at or after it is 2, and a decoding environment accepts the slice. -/
theorem jpeg_scan_spec_C5_witness :
    PilLambda.find_jpeg_data_in_raw pilOpenEnv [0xff, 0xd8, 0xff, 0xd9] =
      some [0xff, 0xd8, 0xff, 0xd9] := by
  have hsoi : isFirstMatchFrom [0xff, 0xd8, 0xff, 0xd9] PilLambda.jpeg_start 0 0 :=
    ⟨Nat.le_refl 0, by decide, fun j _ hj => absurd hj (by omega)⟩
  have heoi : isFirstMatchFrom [0xff, 0xd8, 0xff, 0xd9] PilLambda.jpeg_end 0 2 := by
    refine ⟨by omega, by decide, ?_⟩
    intro j _ hj
    interval_cases j <;> decide
  have h := ((jpeg_scan_spec_C5 pilOpenEnv [0xff, 0xd8, 0xff, 0xd9]).2 0 hsoi).2 2 heoi
  rw [h]
  decide

/-- C1: when the embedded-JPEG scan finds nothing and the TIFF strategy
fails, `process_raw_file` still returns bytes — the placeholder — and the
handler uploads them and answers statusCode 200; strategy exhaustion is
never surfaced as an error. -/
theorem raw_exhaustion_success_C1
    (env : PilLambda.PILEnv) (store : PilLambda.S3Store) (r : PilLambda.S3Record)
    (raw_data : List Nat) (thumbnail_key : List Char)
    (hraw : is_raw_file (basename (decodeKey r.key)) = true)
    (hpath : PilLambda.generate_thumbnail_path (decodeKey r.key)
      (basename (decodeKey r.key)) = some thumbnail_key)
    (hget : store.getObject r.bucket (decodeKey r.key) = some raw_data)
    (hscan : PilLambda.find_jpeg_data_in_raw env raw_data = none)
    (htiff : PilLambda.process_tiff_file env raw_data = none)
    (hput : store.putObjectOk = true) :
    (∀ extension, PilLambda.process_raw_file env raw_data extension =
      PilLambda.create_placeholder_thumbnail env 1200 800) ∧
    PilLambda.lambda_handler env store r =
      (200, some (thumbnail_key,
        (PilLambda.optimize_thumbnail env
          (PilLambda.create_placeholder_thumbnail env 1200 800) 1200 1200).1)) := by
  have hproc : ∀ extension, PilLambda.process_raw_file env raw_data extension =
      PilLambda.create_placeholder_thumbnail env 1200 800 := by
    intro extension
    unfold PilLambda.process_raw_file
    rw [hscan]
    by_cases hext : extension.map Char.toLower = ".tiff".data ∨
        extension.map Char.toLower = ".tif".data
    · rw [if_pos hext, htiff]
    · rw [if_neg hext]
  refine ⟨hproc, ?_⟩
  unfold PilLambda.lambda_handler
  rw [if_neg (by simp [hraw])]
  simp only [hpath, hget, hproc, hput, if_true]

/-- C1 witness: marker-bearing RAW bytes that no strategy can decode end in
an uploaded placeholder and a 200 status. -/
theorem raw_exhaustion_success_C1_witness :
    PilLambda.lambda_handler pilScanFailEnv pilStore pilRecord =
      (200, some ("user/u1/rawThumbnail/2023/04/05/a_thumb.jpg".data, [9])) := by
  have h := raw_exhaustion_success_C1 pilScanFailEnv pilStore pilRecord
    [0xff, 0xd8, 0xff, 0xd9] "user/u1/rawThumbnail/2023/04/05/a_thumb.jpg".data
    (by decide) (by decide) rfl (by decide) (by decide) rfl
  rw [h.2]
  decide
